import Mathlib

/-!
Verification development for the Discord-to-Claude session bridge.

The source components embedded here:
- `src/bridge/session.ts` (class `ClaudeSession`): subprocess state, line
  framing (`processBuffer`), record dispatch (`handleMessage`), `sendMessage`,
  `stop`, `isAlive`, `isBusy`.
- `src/bot/client.ts` (`createSession` and the module-level registries):
  the output classifier and debounce buffers, overflow recovery, fatal exit
  handling, tool-use handling.
- `src/bot/formatter.ts` (`containsQuestion`).

Strings are modelled at the character-list level where the source splits or
trims them; JavaScript string primitives (`trim`, `split`, `endsWith`,
`toLowerCase`) are given faithful character-list counterparts below.
-/

namespace DiscordClaude

/-- JavaScript whitespace test used by `String.prototype.trim`. -/
def wsChar (c : Char) : Bool := c.isWhitespace

/-- JavaScript `String.prototype.trim` on a character list. -/
def trimChars (l : List Char) : List Char :=
  ((l.dropWhile wsChar).reverse.dropWhile wsChar).reverse

/-- JavaScript `text.split('\n')` on a character list: the resulting list is
always nonempty, and the pieces joined by a newline give back the input. -/
def splitNl : List Char → List (List Char)
  | [] => [[]]
  | c :: cs =>
    match splitNl cs with
    | [] => [[]]
    | l :: ls => if c = '\n' then [] :: l :: ls else (c :: l) :: ls

/-- Join a list of lines, terminating each with a newline. -/
def joinNl (ls : List (List Char)) : List Char :=
  (ls.map (fun l => l ++ ['\n'])).flatten


/-- One call of `ClaudeSession.processBuffer` at the framing level:
`this.buffer += data; const lines = this.buffer.split('\n');
this.buffer = lines.pop() || '';` — returns the retained fragment and the
complete lines delivered downstream. -/
def frameChunk (buf chunk : List Char) : List Char × List (List Char) :=
  let parts := splitNl (buf ++ chunk)
  (parts.getLastD [], parts.dropLast)

/-- Feeding a sequence of chunks through the framer, starting from a retained
fragment; collects all complete lines in order. -/
def frameChunks : List Char → List (List Char) → List Char × List (List Char)
  | buf, [] => (buf, [])
  | buf, c :: cs =>
    let r1 := frameChunk buf c
    let r2 := frameChunks r1.1 cs
    (r2.1, r1.2 ++ r2.2)


/-! ## ClaudeSession state (src/bridge/session.ts) -/

/-- The live subprocess handle: whether its stdin pipe exists and the exit
code (`none` while running; `some none` models a signal death, where the
JavaScript `exitCode` stays `null`). -/
structure ProcHandle where
  stdin : Bool
  exited : Option (Option Int)
deriving Repr, DecidableEq

/-- Mutable fields of class `ClaudeSession`: `process`, `sessionId`,
`buffer`, `busy`. -/
structure SessionState where
  process : Option ProcHandle
  sessionId : Option String
  buffer : List Char
  busy : Bool
deriving Repr, DecidableEq

/-- Constructor state of `ClaudeSession`. -/
def initSession : SessionState :=
  { process := none, sessionId := none, buffer := [], busy := false }

/-- `isBusy()`. -/
def SessionState.isBusy (st : SessionState) : Bool := st.busy

/-- `isAlive()`: `this.process !== null && this.process.exitCode === null`. -/
def SessionState.isAlive (st : SessionState) : Bool :=
  match st.process with
  | some p => p.exited.isNone
  | none => false

/-- `start()`: spawns the subprocess (stdin piped, not yet exited); the
other fields are left as they are. -/
def startSession (st : SessionState) : SessionState :=
  { st with process := some { stdin := true, exited := none } }

/-- `stop()`: if a process exists, kill it and clear everything; otherwise
do nothing. -/
def stopSession (st : SessionState) : SessionState :=
  match st.process with
  | some _ => { process := none, sessionId := none, buffer := [], busy := false }
  | none => st

/-- The outbound `user` wire record: content plus the session token used
(`this.sessionId || 'default'`). -/
structure UserRecord where
  content : String
  session_id : String
deriving Repr, DecidableEq

/-- Result of `sendMessage`: either the `Session not started` throw, or the
updated state together with the single line written to the subprocess. -/
inductive SendOutcome where
  | notStarted
  | sent (st : SessionState) (rec : UserRecord)
deriving Repr, DecidableEq

/-- `sendMessage(content)`: throws when `!this.process || !this.process.stdin`;
otherwise sets `busy`, builds the user record with the current token or the
placeholder, and writes it as one line. -/
def sendMessage (st : SessionState) (content : String) : SendOutcome :=
  match st.process with
  | none => .notStarted
  | some p =>
    if p.stdin then
      .sent { st with busy := true }
        { content := content, session_id := st.sessionId.getD "default" }
    else .notStarted

/-! ## Protocol records and dispatch (`StreamMessage`, `handleMessage`) -/

inductive MsgType where
  | system | assistant | result | other
deriving Repr, DecidableEq

structure AskOption where
  label : String
  description : Option String
deriving Repr, DecidableEq

structure AskQuestion where
  question : String
  options : Option (List AskOption)
deriving Repr, DecidableEq

/-- The structured input of a tool-use block, as read by the bot
(`input.questions as Array<{question, options[]}> | undefined`). -/
structure ToolInput where
  questions : Option (List AskQuestion)
deriving Repr, DecidableEq

inductive BlockKind where
  | text | toolUse
deriving Repr, DecidableEq

/-- One entry of `message.content[]`. -/
structure Block where
  kind : BlockKind
  text : Option String
  name : Option String
  input : Option ToolInput
deriving Repr, DecidableEq

/-- A decoded wire record. -/
structure StreamMessage where
  type : MsgType
  content : Option (List Block)
  result : Option String
  session_id : Option String
  is_error : Option Bool
deriving Repr, DecidableEq

/-- Typed events re-emitted by the Session (`message`, `toolUse`, `result`). -/
inductive SessionEvent where
  | message (text : String)
  | toolUse (name : String) (input : ToolInput)
  | result (text : String) (isError : Bool)
deriving Repr, DecidableEq

/-- `if (msg.session_id && msg.session_id !== 'default') this.sessionId = ...`. -/
def captureSid (st : SessionState) (sid : Option String) : SessionState :=
  match sid with
  | some s => if s ≠ "" ∧ s ≠ "default" then { st with sessionId := some s } else st
  | none => st

/-- The non-default session token carried by a record, if any (empty strings
are falsy in JavaScript). -/
def nonDefaultSid (msg : StreamMessage) : Option String :=
  match msg.session_id with
  | some s => if s ≠ "" ∧ s ≠ "default" then some s else none
  | none => none

/-- The event produced by one content block inside the `assistant` loop:
`text` blocks with truthy text emit a message event, `tool_use` blocks with
a truthy name emit a toolUse event. -/
def blockEvent (b : Block) : Option SessionEvent :=
  match b.kind with
  | .text =>
    match b.text with
    | some t => if t = "" then none else some (.message t)
    | none => none
  | .toolUse =>
    match b.name with
    | some n => if n = "" then none else some (.toolUse n (b.input.getD ⟨none⟩))
    | none => none

/-- `ClaudeSession.handleMessage`. -/
def handleMessage (st : SessionState) (msg : StreamMessage) :
    SessionState × List SessionEvent :=
  let st1 := captureSid st msg.session_id
  match msg.type with
  | .system => (st1, [])
  | .assistant =>
    match msg.content with
    | some blocks => (st1, blocks.filterMap blockEvent)
    | none => (st1, [])
  | .result =>
    ({ st1 with busy := false },
     [.result (msg.result.getD "") (msg.is_error.getD false)])
  | .other => (st1, [])

/-- Feed a list of already-framed records through `handleMessage`. -/
def runMsgs (st : SessionState) : List StreamMessage → SessionState × List SessionEvent
  | [] => (st, [])
  | m :: ms =>
    let r1 := handleMessage st m
    let r2 := runMsgs r1.1 ms
    (r2.1, r1.2 ++ r2.2)

/-! ## Line-level processing (`processBuffer` body) -/

/-- Processing of one complete line inside `processBuffer`: trim, skip when
blank, JSON-parse (`decode` stands for `JSON.parse` plus the cast), dispatch
on success, skip on failure. -/
def processLine (decode : String → Option StreamMessage) (st : SessionState)
    (line : List Char) : SessionState × List SessionEvent :=
  let trimmed := trimChars line
  if trimmed.isEmpty then (st, [])
  else
    match decode (String.mk trimmed) with
    | none => (st, [])
    | some msg => handleMessage st msg

/-- The `for (const line of lines)` loop of `processBuffer`. -/
def processLines (decode : String → Option StreamMessage) (st : SessionState) :
    List (List Char) → SessionState × List SessionEvent
  | [] => (st, [])
  | l :: ls =>
    let r1 := processLine decode st l
    let r2 := processLines decode r1.1 ls
    (r2.1, r1.2 ++ r2.2)

/-- Full `processBuffer` on one stdout chunk: frame, retain the fragment,
process the complete lines. -/
def processBuffer (decode : String → Option StreamMessage) (st : SessionState)
    (data : List Char) : SessionState × List SessionEvent :=
  let fr := frameChunk st.buffer data
  processLines decode { st with buffer := fr.1 } fr.2

/-! ## Operation traces on one `ClaudeSession` -/

/-- Externally visible operations and events on one session object. -/
inductive SessOp where
  | startOp
  | stopOp
  | send (text : String)
  | procExit (code : Option Int)
  | recv (msg : StreamMessage)
deriving Repr, DecidableEq

/-- The state change of each operation (`send` keeps the old state when the
call throws; `procExit` is the `exit` listener, which clears `busy`). -/
def applyOp (st : SessionState) : SessOp → SessionState
  | .startOp => startSession st
  | .stopOp => stopSession st
  | .send text =>
    match sendMessage st text with
    | .notStarted => st
    | .sent st2 _ => st2
  | .procExit code =>
    { st with process := st.process.map (fun p => { p with exited := some code }),
              busy := false }
  | .recv msg => (handleMessage st msg).1

def runOps (ops : List SessOp) : SessionState := ops.foldl applyOp initSession

/-- A session is active after a trace iff some `start()` happened with no
`stop()` after it. -/
def activeAfter : Bool → List SessOp → Bool
  | active, [] => active
  | _, .startOp :: rest => activeAfter true rest
  | _, .stopOp :: rest => activeAfter false rest
  | active, .send _ :: rest => activeAfter active rest
  | active, .procExit _ :: rest => activeAfter active rest
  | active, .recv _ :: rest => activeAfter active rest

/-- Every process handle reachable through the public operations has a live
stdin pipe (spawn always opens one). -/
def goodProc (st : SessionState) : Prop :=
  ∀ p, st.process = some p → p.stdin = true

/-- The latest (most recently received) non-default session token in a list of
records, if any. -/
def lastNonDefaultSid : List StreamMessage → Option String
  | [] => none
  | m :: ms => (lastNonDefaultSid ms).or (nonDefaultSid m)

/-- Modelled from the spec: the token is captured from the FIRST record
carrying a non-default value.  This definition follows the spec wording and is
compared against the implementation (which overwrites on every non-default
record). -/
def firstNonDefaultSid : List StreamMessage → Option String
  | [] => none
  | m :: ms => (nonDefaultSid m).or (firstNonDefaultSid ms)

/-! ## Output classifier and bot-level handlers (src/bot/client.ts) -/

/-- `formatter.ts` `containsQuestion`: the last non-empty line of the trimmed
text ends with a question mark. -/
def containsQuestion (text : String) : Bool :=
  let lines := splitNl (trimChars text.data)
  (trimChars (lines.getLastD [])).getLast? = some '?'

def toLowerChars (l : List Char) : List Char := l.map Char.toLower

/-- Case-sensitive substring test on character lists. -/
def listContainsSub (needle : List Char) : List Char → Bool
  | [] => needle.isEmpty
  | c :: t => needle.isPrefixOf (c :: t) || listContainsSub needle t

/-- The overflow check `/prompt is too long/i.test(fullText)`. -/
def overflowDetected (fullText : String) : Bool :=
  listContainsSub (toLowerChars "prompt is too long".data) (toLowerChars fullText.data)

/-- The closure variables `responseBuffer`, `questionBuffer`, `questionTimeout`
of `createSession` (the timer handle is modelled by whether a flush is
pending). -/
structure ClassifierState where
  responseBuffer : String
  questionBuffer : String
  timerArmed : Bool
deriving Repr, DecidableEq

def initClassifier : ClassifierState :=
  { responseBuffer := "", questionBuffer := "", timerArmed := false }

/-- Messages the bot sends into the Discord thread (formatting, mentions and
embed decoration elided; one constructor application = one outbound message). -/
inductive OutMsg where
  | question (text : String)
  | choicePrompt (text : String)
  | completionOk (text : String)
  | completionErr
  | fatalNotice (code : Int)
deriving Repr, DecidableEq

/-- The `session.on('message', ...)` handler: append the delta, and when the
accumulated text now ends in a question mark, reclassify the whole span as the
pending question, clear the accumulator and (re)arm the 500 ms debounce
timer. -/
def onDelta (cls : ClassifierState) (text : String) : ClassifierState :=
  let rb := cls.responseBuffer ++ text
  if containsQuestion rb then
    { responseBuffer := "", questionBuffer := rb, timerArmed := true }
  else
    { cls with responseBuffer := rb }

/-- `flushQuestion`: when the pending question is non-blank, send it as one
message and clear it; the pending timer is consumed either way. -/
def flushQuestion (cls : ClassifierState) : ClassifierState × List OutMsg :=
  if (trimChars cls.questionBuffer.data).isEmpty then
    ({ cls with timerArmed := false }, [])
  else
    ({ cls with questionBuffer := "", timerArmed := false },
     [.question cls.questionBuffer])

/-- The per-conversation-key state the bot keeps around one live session:
the session object of the current closure, the classifier buffers, the
`handledAskUser` flag, whether the key is present in the `sessions` registry,
and the `lastUserMessages` entry.  `stoppedOld` is a ghost field recording the
state of the session most recently stopped by overflow recovery. -/
structure SysState where
  sess : SessionState
  cls : ClassifierState
  handledAskUser : Bool
  registered : Bool
  lastUser : Option String
  stoppedOld : Option SessionState
deriving Repr, DecidableEq

/-- State right after `createSession` registered and started a session for a
fresh thread. -/
def initSys : SysState :=
  { sess := startSession initSession, cls := initClassifier,
    handledAskUser := false, registered := true, lastUser := none,
    stoppedOld := none }

/-- Events delivered to the handlers of one conversation key. `timerFire`
is the debounce timeout running out. -/
inductive InEvent where
  | delta (text : String)
  | timerFire
  | toolUse (name : String) (input : ToolInput)
  | resultEvt (text : String) (isError : Bool)
  | exitEvt (code : Option Int)
deriving Repr, DecidableEq

/-- The `session.on('toolUse', ...)` handler.  Tools other than
`AskUserQuestion` are only logged to the console — nothing is sent to the
thread.  For `AskUserQuestion`, unparseable structured input falls back to
ordinary narrative (early return, buffers untouched); parseable questions
clear the text buffers, set `handledAskUser`, cancel the debounce timer and
send one choice prompt per question (the interactive button wait and the
answers it writes back are outside this model). -/
def stepToolUse (st : SysState) (name : String) (input : ToolInput) :
    SysState × List OutMsg × List UserRecord :=
  if name = "AskUserQuestion" then
    match input.questions with
    | none => (st, [], [])
    | some [] => (st, [], [])
    | some qs =>
      ({ st with cls := initClassifier, handledAskUser := true },
       qs.map (fun q => OutMsg.choicePrompt q.question), [])
  else
    (st, [], [])

/-- `sendEmbed(text, color)`: returns without sending when the text is blank
after trimming (`if (!text.trim()) return;`); otherwise sends exactly one
embed message (the over-length split still produces one `thread.send`). -/
def sendEmbed (text : String) (msg : OutMsg) : List OutMsg :=
  if (trimChars text.data).isEmpty then [] else [msg]

/-- The `session.on('result', ...)` handler.  `text` is the result record's
text (already defaulted to the empty string by `handleMessage`); the session
object has cleared its own busy flag before this handler runs.  Overflow path:
discard buffers, stop the old session, create/start/register a replacement
(fresh closure state), and resend the recorded last user input when that input
is truthy (`if (lastMessage)` — absent or the empty string skips the resend),
showing nothing to the user.  Normal path: flush any pending question, clear
the narrative accumulator, then send the completion embed — on error one
failure notice (its text is a non-blank constant, so the blank guard of
`sendEmbed` never suppresses it), else the result text when truthy, through
the blank guard of `sendEmbed`. -/
def stepResult (st : SysState) (text : String) (isErr : Bool) :
    SysState × List OutMsg × List UserRecord :=
  let s := { st.sess with busy := false }
  if overflowDetected (st.cls.responseBuffer ++ text) then
    let old := stopSession s
    let fresh := startSession initSession
    match st.lastUser with
    | some m =>
      if m = "" then
        ({ sess := fresh, cls := initClassifier, handledAskUser := false,
           registered := true, lastUser := st.lastUser,
           stoppedOld := some old }, [], [])
      else
        match sendMessage fresh m with
        | .sent s2 r =>
          ({ sess := s2, cls := initClassifier, handledAskUser := false,
             registered := true, lastUser := st.lastUser,
             stoppedOld := some old }, [], [r])
        | .notStarted =>
          ({ sess := fresh, cls := initClassifier, handledAskUser := false,
             registered := true, lastUser := st.lastUser,
             stoppedOld := some old }, [], [])
    | none =>
      ({ sess := fresh, cls := initClassifier, handledAskUser := false,
         registered := true, lastUser := none, stoppedOld := some old }, [], [])
  else
    let fq := flushQuestion st.cls
    let cls2 := { fq.1 with responseBuffer := "" }
    if st.handledAskUser then
      ({ st with sess := s, cls := cls2, handledAskUser := false }, fq.2, [])
    else if isErr then
      ({ st with sess := s, cls := cls2 }, fq.2 ++ [.completionErr], [])
    else if text ≠ "" then
      ({ st with sess := s, cls := cls2 },
       fq.2 ++ sendEmbed text (OutMsg.completionOk text), [])
    else
      ({ st with sess := s, cls := cls2 }, fq.2, [])

/-- The `session.on('exit', ...)` handler: record the exit code on the process
handle, clear busy, send one fatal notice when the code is neither 0 nor null,
and remove the key from the registry. -/
def stepExit (st : SysState) (code : Option Int) :
    SysState × List OutMsg × List UserRecord :=
  let s := { st.sess with
               process := st.sess.process.map (fun p => { p with exited := some code }),
               busy := false }
  let notices :=
    match code with
    | some c => if c ≠ 0 then [OutMsg.fatalNotice c] else []
    | none => []
  ({ st with sess := s, registered := false }, notices, [])

/-- One event step of the bot-level handlers for one conversation key;
returns the new state, the messages sent to the thread, and the records
written to a subprocess stdin. -/
def stepEvent (st : SysState) : InEvent → SysState × List OutMsg × List UserRecord
  | .delta text => ({ st with cls := onDelta st.cls text }, [], [])
  | .timerFire =>
    let fq := flushQuestion st.cls
    ({ st with cls := fq.1 }, fq.2, [])
  | .toolUse name input => stepToolUse st name input
  | .resultEvt text isErr => stepResult st text isErr
  | .exitEvt code => stepExit st code

/-- Run a list of events, concatenating outbound messages and written
records in order. -/
def runEvents (st : SysState) : List InEvent → SysState × List OutMsg × List UserRecord
  | [] => (st, [], [])
  | e :: es =>
    let r1 := stepEvent st e
    let r2 := runEvents r1.1 es
    (r2.1, r1.2.1 ++ r2.2.1, r1.2.2 ++ r2.2.2)

/-- Concrete records used by the claim-C8 counterexample: two system records
carrying distinct non-default session tokens. -/
def recSidA : StreamMessage :=
  { type := .system, content := none, result := none,
    session_id := some "sidA", is_error := none }

def recSidB : StreamMessage :=
  { type := .system, content := none, result := none,
    session_id := some "sidB", is_error := none }

/-- Concrete bot state used by the claim-C2 witness: an overflow diagnostic
sits in the narrative buffer and a last user input is recorded. -/
def overflowSys : SysState :=
  { sess := startSession initSession,
    cls := { responseBuffer := "Error: Prompt is too long.", questionBuffer := "",
             timerArmed := false },
    handledAskUser := false, registered := true,
    lastUser := some "try again", stoppedOld := none }

/-- Concrete bot state used by the claim-C2 counterexample: an overflow
diagnostic sits in the narrative buffer and the recorded last user input is
the empty string (reachable: an attachment-only message whose upload failed
stores the empty text), which is falsy in JavaScript. -/
def overflowEmptySys : SysState :=
  { sess := startSession initSession,
    cls := { responseBuffer := "Error: Prompt is too long.", questionBuffer := "",
             timerArmed := false },
    handledAskUser := false, registered := true,
    lastUser := some "", stoppedOld := none }

/-! ## Supporting lemmas -/

theorem splitNl_cons_eq (c : Char) (cs l : List Char) (ls : List (List Char))
    (h : splitNl cs = l :: ls) :
    splitNl (c :: cs) = if c = '\n' then [] :: l :: ls else (c :: l) :: ls := by
  simp only [splitNl, h]

theorem splitNl_ne_nil (s : List Char) : splitNl s ≠ [] := by
  induction s with
  | nil => simp [splitNl]
  | cons c cs ih =>
    cases h : splitNl cs with
    | nil => exact absurd h ih
    | cons l ls =>
      rw [splitNl_cons_eq c cs l ls h]
      split <;> simp

theorem splitNl_reassemble (s : List Char) :
    joinNl (splitNl s).dropLast ++ (splitNl s).getLastD [] = s := by
  induction s with
  | nil => simp [splitNl, joinNl]
  | cons c cs ih =>
    cases h : splitNl cs with
    | nil => exact absurd h (splitNl_ne_nil cs)
    | cons l ls =>
      rw [h] at ih
      rw [splitNl_cons_eq c cs l ls h]
      by_cases hc : c = '\n'
      · subst hc
        rw [if_pos rfl]
        cases ls with
        | nil =>
          simp [joinNl, List.getLastD] at ih ⊢
          simpa using ih
        | cons l2 ls2 =>
          simp [joinNl, List.getLastD] at ih ⊢
          simpa using ih
      · rw [if_neg hc]
        cases ls with
        | nil =>
          simp [joinNl, List.getLastD] at ih ⊢
          simp [ih]
        | cons l2 ls2 =>
          simp [joinNl, List.getLastD] at ih ⊢
          simp [ih]

theorem newline_not_mem_splitNl_last (s : List Char) :
    '\n' ∉ (splitNl s).getLastD [] := by
  induction s with
  | nil => simp [splitNl]
  | cons c cs ih =>
    cases h : splitNl cs with
    | nil => exact absurd h (splitNl_ne_nil cs)
    | cons l ls =>
      rw [h] at ih
      rw [splitNl_cons_eq c cs l ls h]
      by_cases hc : c = '\n'
      · subst hc
        rw [if_pos rfl]
        simpa [List.getLastD] using ih
      · rw [if_neg hc]
        cases ls with
        | nil =>
          simp [List.getLastD] at ih ⊢
          exact ⟨fun heq => hc heq.symm, ih⟩
        | cons l2 ls2 =>
          simpa [List.getLastD] using ih

theorem frameChunk_reassemble (buf chunk : List Char) :
    joinNl (frameChunk buf chunk).2 ++ (frameChunk buf chunk).1 = buf ++ chunk := by
  simpa [frameChunk] using splitNl_reassemble (buf ++ chunk)

theorem frameChunks_reassemble (buf : List Char) (chunks : List (List Char)) :
    joinNl (frameChunks buf chunks).2 ++ (frameChunks buf chunks).1
      = buf ++ chunks.flatten := by
  induction chunks generalizing buf with
  | nil => simp [frameChunks, joinNl]
  | cons c cs ih =>
    have h1 := frameChunk_reassemble buf c
    have h2 := ih (frameChunk buf c).1
    simp only [frameChunks, joinNl, List.map_append, List.flatten_append,
      List.flatten_cons]
    calc ((frameChunk buf c).2.map (fun l => l ++ ['\n'])).flatten
          ++ ((frameChunks (frameChunk buf c).1 cs).2.map
                (fun l => l ++ ['\n'])).flatten
          ++ (frameChunks (frameChunk buf c).1 cs).1
        = joinNl (frameChunk buf c).2
            ++ (joinNl (frameChunks (frameChunk buf c).1 cs).2
                ++ (frameChunks (frameChunk buf c).1 cs).1) := by
          simp [joinNl, List.append_assoc]
      _ = joinNl (frameChunk buf c).2 ++ ((frameChunk buf c).1 ++ cs.flatten) := by
          rw [h2]
      _ = (joinNl (frameChunk buf c).2 ++ (frameChunk buf c).1) ++ cs.flatten := by
          simp [List.append_assoc]
      _ = (buf ++ c) ++ cs.flatten := by rw [h1]
      _ = buf ++ (c ++ cs.flatten) := by simp [List.append_assoc]

theorem frameChunks_frag_no_newline (buf : List Char) (chunks : List (List Char))
    (h : '\n' ∉ buf) : '\n' ∉ (frameChunks buf chunks).1 := by
  induction chunks generalizing buf with
  | nil => simpa [frameChunks] using h
  | cons c cs ih =>
    simp only [frameChunks]
    exact ih _ (by simpa [frameChunk] using newline_not_mem_splitNl_last (buf ++ c))


theorem captureSid_fields (st : SessionState) (sid : Option String) :
    (captureSid st sid).process = st.process ∧
    (captureSid st sid).buffer = st.buffer ∧
    (captureSid st sid).busy = st.busy := by
  cases sid with
  | none => simp [captureSid]
  | some s =>
    simp only [captureSid]
    split <;> simp

theorem captureSid_sessionId (st : SessionState) (msg : StreamMessage) :
    (captureSid st msg.session_id).sessionId = (nonDefaultSid msg).or st.sessionId := by
  cases hs : msg.session_id with
  | none => simp [captureSid, nonDefaultSid, hs, Option.or]
  | some s =>
    simp only [captureSid, nonDefaultSid, hs]
    by_cases hc : ¬s = "" ∧ ¬s = "default" <;> simp [hc, Option.or]

theorem handleMessage_frame_fields (st : SessionState) (msg : StreamMessage) :
    (handleMessage st msg).1.process = st.process ∧
    (handleMessage st msg).1.buffer = st.buffer := by
  have h := captureSid_fields st msg.session_id
  unfold handleMessage
  cases msg.type <;> cases msg.content <;> simp [h.1, h.2.1]

theorem handleMessage_sessionId (st : SessionState) (msg : StreamMessage) :
    (handleMessage st msg).1.sessionId = (nonDefaultSid msg).or st.sessionId := by
  have h := captureSid_sessionId st msg
  unfold handleMessage
  cases msg.type <;> cases msg.content <;> simpa using h

theorem stopSession_process (st : SessionState) : (stopSession st).process = none := by
  unfold stopSession
  cases h : st.process <;> simp [h]

theorem sendMessage_cases (st : SessionState) (text : String) :
    sendMessage st text = .notStarted ∨
    sendMessage st text = .sent { st with busy := true }
      { content := text, session_id := st.sessionId.getD "default" } := by
  simp only [sendMessage]
  cases st.process with
  | none => exact Or.inl rfl
  | some p =>
    by_cases hs : p.stdin = true
    · exact Or.inr (by simp [hs])
    · exact Or.inl (by simp [hs])

theorem applyOp_send_process (st : SessionState) (text : String) :
    (applyOp st (.send text)).process = st.process := by
  rcases sendMessage_cases st text with h | h <;> simp [applyOp, h]

theorem applyOp_goodProc (st : SessionState) (op : SessOp) (h : goodProc st) :
    goodProc (applyOp st op) := by
  cases op with
  | startOp =>
    intro p hp
    simp [applyOp, startSession] at hp
    simp [← hp]
  | stopOp =>
    intro p hp
    simp only [applyOp] at hp
    rw [stopSession_process] at hp
    exact absurd hp (by simp)
  | send text =>
    intro p hp
    rw [applyOp_send_process] at hp
    exact h p hp
  | procExit code =>
    intro p hp
    simp only [applyOp, Option.map_eq_some'] at hp
    obtain ⟨q, hq, rfl⟩ := hp
    exact h q hq
  | recv msg =>
    intro p hp
    simp only [applyOp] at hp
    rw [(handleMessage_frame_fields st msg).1] at hp
    exact h p hp

theorem applyOp_active (st : SessionState) (op : SessOp) :
    (applyOp st op).process.isSome = activeAfter st.process.isSome [op] := by
  cases op with
  | startOp => simp [applyOp, startSession, activeAfter]
  | stopOp => simp [applyOp, stopSession_process, activeAfter]
  | send text => simp [applyOp_send_process, activeAfter]
  | procExit code =>
    simp only [applyOp, activeAfter]
    cases st.process <;> simp
  | recv msg => simp [applyOp, (handleMessage_frame_fields st msg).1, activeAfter]

theorem activeAfter_cons (b : Bool) (op : SessOp) (rest : List SessOp) :
    activeAfter (activeAfter b [op]) rest = activeAfter b (op :: rest) := by
  cases op <;> rfl

theorem foldl_applyOp_active (ops : List SessOp) (st : SessionState)
    (h : goodProc st) :
    (ops.foldl applyOp st).process.isSome = activeAfter st.process.isSome ops ∧
    goodProc (ops.foldl applyOp st) := by
  induction ops generalizing st with
  | nil => exact ⟨rfl, h⟩
  | cons op rest ih =>
    have hg := applyOp_goodProc st op h
    obtain ⟨h1, h2⟩ := ih (applyOp st op) hg
    refine ⟨?_, h2⟩
    rw [List.foldl_cons, h1, applyOp_active, activeAfter_cons]

theorem runMsgs_frame_fields (ms : List StreamMessage) (st : SessionState) :
    (runMsgs st ms).1.process = st.process ∧ (runMsgs st ms).1.buffer = st.buffer := by
  induction ms generalizing st with
  | nil => exact ⟨rfl, rfl⟩
  | cons m rest ih =>
    have h := handleMessage_frame_fields st m
    obtain ⟨i1, i2⟩ := ih (handleMessage st m).1
    exact ⟨by simp [runMsgs, i1, h.1], by simp [runMsgs, i2, h.2]⟩

theorem option_or_assoc {α : Type} (a b c : Option α) :
    (a.or b).or c = a.or (b.or c) := by
  cases a <;> rfl

theorem runMsgs_sessionId (ms : List StreamMessage) (st : SessionState) :
    (runMsgs st ms).1.sessionId = (lastNonDefaultSid ms).or st.sessionId := by
  induction ms generalizing st with
  | nil => rfl
  | cons m rest ih =>
    have h1 := handleMessage_sessionId st m
    calc (runMsgs st (m :: rest)).1.sessionId
        = (lastNonDefaultSid rest).or (handleMessage st m).1.sessionId := by
          simpa [runMsgs] using ih (handleMessage st m).1
      _ = (lastNonDefaultSid rest).or ((nonDefaultSid m).or st.sessionId) := by rw [h1]
      _ = ((lastNonDefaultSid rest).or (nonDefaultSid m)).or st.sessionId := by
          rw [option_or_assoc]
      _ = (lastNonDefaultSid (m :: rest)).or st.sessionId := rfl

theorem option_or_none {α : Type} (a : Option α) : a.or none = a := by
  cases a <;> rfl

theorem stopSession_isAlive (st : SessionState) :
    (stopSession st).isAlive = false := by
  simp [SessionState.isAlive, stopSession_process]

theorem runEvents_append (st : SysState) (xs ys : List InEvent) :
    runEvents st (xs ++ ys)
      = ((runEvents (runEvents st xs).1 ys).1,
         (runEvents st xs).2.1 ++ (runEvents (runEvents st xs).1 ys).2.1,
         (runEvents st xs).2.2 ++ (runEvents (runEvents st xs).1 ys).2.2) := by
  induction xs generalizing st with
  | nil => simp [runEvents]
  | cons e es ih =>
    simp [runEvents, ih, List.append_assoc]

theorem runEvents_deltas (ds : List String) (st : SysState) :
    runEvents st (ds.map InEvent.delta)
      = ({ st with cls := ds.foldl onDelta st.cls }, [], []) := by
  induction ds generalizing st with
  | nil => rfl
  | cons d ds ih =>
    simp [runEvents, stepEvent, ih, List.foldl_cons]

/-! ## Claim theorems -/

/-- Claim C4: for every sequence of byte chunks fed to the Line Framer, the
complete lines it produces, each rejoined with the newline terminator,
reproduce the concatenated input minus the single undelivered trailing
fragment; when the input ends in a terminator the fragment is empty, so the
lines reproduce the whole input. -/
theorem c4_line_framer_reassembly (chunks : List (List Char)) :
    joinNl (frameChunks [] chunks).2 ++ (frameChunks [] chunks).1 = chunks.flatten
    ∧ (chunks.flatten.getLast? = some '\n' → (frameChunks [] chunks).1 = []) := by
  have heq : joinNl (frameChunks [] chunks).2 ++ (frameChunks [] chunks).1
      = chunks.flatten := by
    simpa using frameChunks_reassemble [] chunks
  refine ⟨heq, ?_⟩
  intro hend
  by_contra hne
  have hnl : '\n' ∉ (frameChunks [] chunks).1 :=
    frameChunks_frag_no_newline [] chunks (by simp)
  rw [← heq, List.getLast?_append_of_ne_nil _ hne] at hend
  obtain ⟨hh, hx⟩ := List.mem_getLast?_eq_getLast (Option.mem_def.mpr hend)
  have hmem := List.getLast_mem hh
  rw [← hx] at hmem
  exact hnl hmem

/-- Witness for C4: a concrete chunk sequence ending in a terminator leaves
an empty fragment. -/
theorem c4_line_framer_reassembly_witness :
    (frameChunks [] [['a', '\n', 'b'], ['c', '\n']]).1 = [] :=
  (c4_line_framer_reassembly [['a', '\n', 'b'], ['c', '\n']]).2 (by decide)

/-- Claim C5: a line that does not parse as a protocol record produces zero
events and leaves the session state unchanged, and processing continues with
the following lines. -/
theorem c5_malformed_line_inert (decode : String → Option StreamMessage)
    (st : SessionState) (line : List Char) (rest : List (List Char))
    (h : decode (String.mk (trimChars line)) = none) :
    processLine decode st line = (st, [])
    ∧ processLines decode st (line :: rest) = processLines decode st rest := by
  have h1 : processLine decode st line = (st, []) := by
    by_cases he : (trimChars line).isEmpty <;> simp [processLine, he, h]
  refine ⟨h1, ?_⟩
  simp [processLines, h1]

/-- Witness for C5 at a concrete malformed line. -/
theorem c5_malformed_line_inert_witness :
    processLine (fun _ => none) initSession ("not json".data) = (initSession, [])
    ∧ processLines (fun _ => none) initSession ["not json".data]
        = processLines (fun _ => none) initSession [] :=
  c5_malformed_line_inert (fun _ => none) initSession ("not json".data) [] rfl

/-- Claim C7: over any trace of session operations, sendMessage fails exactly
when the session has not been started or has been stopped since; on failure
the state is unchanged and nothing is written; on success exactly one user
record with the given text and the current token (placeholder when unset) is
written and the session becomes busy. -/
theorem c7_sendMessage_precondition (ops : List SessOp) (text : String) :
    (sendMessage (runOps ops) text = SendOutcome.notStarted ↔
      activeAfter false ops = false)
    ∧ (sendMessage (runOps ops) text = SendOutcome.notStarted →
        applyOp (runOps ops) (.send text) = runOps ops)
    ∧ (activeAfter false ops = true →
        sendMessage (runOps ops) text =
          SendOutcome.sent { runOps ops with busy := true }
            { content := text, session_id := (runOps ops).sessionId.getD "default" }) := by
  have hgood0 : goodProc initSession := by
    intro p hp
    simp [initSession] at hp
  have hinv := foldl_applyOp_active ops initSession hgood0
  have hact : (runOps ops).process.isSome = activeAfter false ops := by
    simpa [runOps, initSession] using hinv.1
  have hgood : goodProc (runOps ops) := hinv.2
  cases hp : (runOps ops).process with
  | none =>
    have hf : activeAfter false ops = false := by rw [← hact, hp]; rfl
    have hns : sendMessage (runOps ops) text = SendOutcome.notStarted := by
      simp [sendMessage, hp]
    refine ⟨⟨fun _ => hf, fun _ => hns⟩, fun _ => ?_, fun ht => ?_⟩
    · simp [applyOp, hns]
    · rw [hf] at ht
      exact absurd ht (by simp)
  | some p =>
    have hstdin : p.stdin = true := hgood p hp
    have ht : activeAfter false ops = true := by rw [← hact, hp]; rfl
    have hsent : sendMessage (runOps ops) text =
        SendOutcome.sent { runOps ops with busy := true }
          { content := text, session_id := (runOps ops).sessionId.getD "default" } := by
      simp [sendMessage, hp, hstdin]
    refine ⟨⟨fun hns => ?_, fun hfalse => ?_⟩, fun hns => ?_, fun _ => hsent⟩
    · rw [hsent] at hns
      exact absurd hns (by simp)
    · rw [ht] at hfalse
      exact absurd hfalse (by simp)
    · rw [hsent] at hns
      exact absurd hns (by simp)

/-- Witness for C7: after a lone start, sendMessage succeeds with the
placeholder token; on the empty trace it fails. -/
theorem c7_sendMessage_precondition_witness :
    sendMessage (runOps [SessOp.startOp]) "hi" =
      SendOutcome.sent { runOps [SessOp.startOp] with busy := true }
        { content := "hi",
          session_id := (runOps [SessOp.startOp]).sessionId.getD "default" }
    ∧ sendMessage (runOps []) "hi" = SendOutcome.notStarted :=
  ⟨(c7_sendMessage_precondition [SessOp.startOp] "hi").2.2 (by decide),
   (c7_sendMessage_precondition [] "hi").1.mpr (by decide)⟩

/-- Claim C8 (amended): the token starts unset and equals the LAST non-default
session identifier seen so far (each non-default record overwrites it);
outbound user records carry that value, or the placeholder when unset. -/
theorem c8_token_last_nondefault (ms : List StreamMessage) (text : String) :
    initSession.sessionId = none
    ∧ (runMsgs initSession ms).1.sessionId = lastNonDefaultSid ms
    ∧ sendMessage (runMsgs (startSession initSession) ms).1 text
        = SendOutcome.sent
            { (runMsgs (startSession initSession) ms).1 with busy := true }
            { content := text,
              session_id := (lastNonDefaultSid ms).getD "default" } := by
  refine ⟨rfl, ?_, ?_⟩
  · simpa [initSession, option_or_none] using runMsgs_sessionId ms initSession
  · have hp2 : (runMsgs (startSession initSession) ms).1.process
        = some { stdin := true, exited := none } := by
      simpa [startSession, initSession]
        using (runMsgs_frame_fields ms (startSession initSession)).1
    have hsid2 : (runMsgs (startSession initSession) ms).1.sessionId
        = lastNonDefaultSid ms := by
      simpa [startSession, initSession, option_or_none]
        using runMsgs_sessionId ms (startSession initSession)
    simp [sendMessage, hp2, hsid2]

/-- Counterexample for Claim C8 as stated: with two system records carrying
non-default tokens sidA then sidB, the captured token is the LAST value,
not the first, and outbound records use it. -/
theorem c8_token_first_cex :
    firstNonDefaultSid [recSidA, recSidB] = some "sidA"
    ∧ (runMsgs initSession [recSidA, recSidB]).1.sessionId = some "sidB"
    ∧ sendMessage (runMsgs (startSession initSession) [recSidA, recSidB]).1 "x"
        = SendOutcome.sent
            { process := some { stdin := true, exited := none },
              sessionId := some "sidB", buffer := [], busy := true }
            { content := "x", session_id := "sidB" }
    ∧ some "sidB" ≠ some "sidA" := by decide

/-- Claim C10: stop on a started session resets every field to its initial
value (so isAlive and isBusy are false afterwards); stop on a never-started
session changes nothing; a second stop changes nothing. -/
theorem c10_stop_idempotent (st : SessionState) :
    (st.process.isSome = true →
      stopSession st = initSession
      ∧ (stopSession st).isAlive = false
      ∧ (stopSession st).isBusy = false)
    ∧ (st.process = none → stopSession st = st)
    ∧ stopSession (stopSession st) = stopSession st := by
  cases hp : st.process with
  | none =>
    refine ⟨fun h => by simp [hp] at h, fun _ => ?_, ?_⟩ <;>
      simp [stopSession, hp]
  | some p =>
    have h1 : stopSession st = initSession := by
      simp [stopSession, hp, initSession]
    refine ⟨fun _ => ⟨h1, ?_, ?_⟩, fun h => by simp [hp] at h, ?_⟩
    · exact stopSession_isAlive st
    · simp [h1, initSession, SessionState.isBusy]
    · rw [h1]
      simp [stopSession, initSession]

/-- Witness for C10 at concrete started and never-started sessions. -/
theorem c10_stop_idempotent_witness :
    stopSession (startSession initSession) = initSession
    ∧ stopSession initSession = initSession :=
  ⟨((c10_stop_idempotent (startSession initSession)).1 (by decide)).1,
   (c10_stop_idempotent initSession).2.1 rfl⟩

/-- Counterexample for Claim C1 as stated: a second question-ending delta
REPLACES the pending question instead of being included in it, so the single
outbound question message does not contain the full accumulated question
text. -/
theorem c1_question_debounce_cex :
    (runEvents initSys
        [InEvent.delta "A?", InEvent.delta "B?", InEvent.timerFire]).2.1
      = [OutMsg.question "B?"]
    ∧ OutMsg.question "B?" ≠ OutMsg.question ("A?" ++ "B?") := by decide

/-- Claim C1 (amended): deltas themselves send nothing; a delta making the
accumulated narrative end in a question mark reclassifies that narrative as
the pending question, replacing any earlier pending question, and rearms the
debounce timer; a delta that does not is neither included nor reschedules.
When the timer fires after the deltas, exactly one question message is sent,
carrying the current pending question. -/
theorem c1_question_debounce_amended (ds : List String) (st : SysState)
    (hq : (trimChars
        ((runEvents st (ds.map InEvent.delta)).1.cls.questionBuffer.data)).isEmpty
        = false) :
    (runEvents st (ds.map InEvent.delta)).2.1 = []
    ∧ (runEvents st (ds.map InEvent.delta ++ [InEvent.timerFire])).2.1
        = [OutMsg.question
            (runEvents st (ds.map InEvent.delta)).1.cls.questionBuffer] := by
  have hd := runEvents_deltas ds st
  have hq2 : (trimChars ((ds.foldl onDelta st.cls).questionBuffer.data)).isEmpty
      = false := by
    rw [hd] at hq
    exact hq
  refine ⟨by rw [hd], ?_⟩
  rw [runEvents_append, hd]
  simp [runEvents, stepEvent, flushQuestion, hq2]

/-- Witness for C1 (amended) at one concrete question-ending delta. -/
theorem c1_question_debounce_amended_witness :
    (runEvents initSys
        (["Use TS?"].map InEvent.delta ++ [InEvent.timerFire])).2.1
      = [OutMsg.question
          (runEvents initSys (["Use TS?"].map InEvent.delta)).1.cls.questionBuffer] :=
  (c1_question_debounce_amended ["Use TS?"] initSys (by decide)).2

/-- Counterexample for Claim C2 as stated: with a recorded last user input
that is the EMPTY string (recorded, but falsy in JavaScript), an overflow
result replaces the session yet writes no user record at all — the
replacement session does not receive the claimed sendMessage call. -/
theorem c2_overflow_empty_cex :
    overflowEmptySys.lastUser = some ""
    ∧ (stepEvent overflowEmptySys (.resultEvt "" false)).2.2 = []
    ∧ ([] : List UserRecord) ≠ [{ content := "", session_id := "default" }]
    ∧ (stepEvent overflowEmptySys (.resultEvt "" false)).1.registered = true := by
  decide

/-- Claim C2 (amended): on a turn result whose combined text carries the
overflow marker, with a NON-EMPTY last user input recorded (the source guards
the resend with JavaScript truthiness, so an absent or empty recorded input is
not resent, though the session is still silently replaced): nothing is shown
to the user, the old session is stopped (dead afterwards), the buffers are
reset, a fresh session is started (alive), registered under the same key, and
exactly one user record carrying the recorded last input is written to it. -/
theorem c2_overflow_restart (st : SysState) (text m : String) (isErr : Bool)
    (hof : overflowDetected (st.cls.responseBuffer ++ text) = true)
    (hl : st.lastUser = some m) (hm : m ≠ "") :
    (stepEvent st (.resultEvt text isErr)).2.1 = []
    ∧ (stepEvent st (.resultEvt text isErr)).2.2
        = [{ content := m, session_id := "default" }]
    ∧ (stepEvent st (.resultEvt text isErr)).1.stoppedOld
        = some (stopSession { st.sess with busy := false })
    ∧ (stopSession { st.sess with busy := false }).isAlive = false
    ∧ (stepEvent st (.resultEvt text isErr)).1.registered = true
    ∧ (stepEvent st (.resultEvt text isErr)).1.sess
        = { startSession initSession with busy := true }
    ∧ (startSession initSession).isAlive = true
    ∧ (stepEvent st (.resultEvt text isErr)).1.cls = initClassifier := by
  have hsend : sendMessage (startSession initSession) m
      = SendOutcome.sent { startSession initSession with busy := true }
          { content := m, session_id := "default" } := by
    simp [sendMessage, startSession, initSession]
  have hstep : stepEvent st (.resultEvt text isErr)
      = ({ sess := { startSession initSession with busy := true },
           cls := initClassifier, handledAskUser := false, registered := true,
           lastUser := some m,
           stoppedOld := some (stopSession { st.sess with busy := false }) },
         [], [{ content := m, session_id := "default" }]) := by
    simp [stepEvent, stepResult, hof, hl, hm, hsend]
  refine ⟨?_, ?_, ?_, stopSession_isAlive _, ?_, ?_, ?_, ?_⟩
  · rw [hstep]
  · rw [hstep]
  · rw [hstep]
  · rw [hstep]
  · rw [hstep]
  · simp [SessionState.isAlive, startSession]
  · rw [hstep]

/-- Witness for C2 (amended) at a concrete overflowing state with a non-empty
recorded last input. -/
theorem c2_overflow_restart_witness :
    (stepEvent overflowSys (.resultEvt "" false)).2.2
        = [{ content := "try again", session_id := "default" }]
    ∧ (stepEvent overflowSys (.resultEvt "" false)).2.1 = [] :=
  ⟨(c2_overflow_restart overflowSys "" "try again" false (by decide) rfl
      (by decide)).2.1,
   (c2_overflow_restart overflowSys "" "try again" false (by decide) rfl
      (by decide)).1⟩

/-- Counterexample for Claim C3 as stated: the accumulated narrative is NOT
flushed at the result event — with an empty result text no completion message
is sent at all, and with a non-empty one only the result text is sent,
without the accumulated narrative. -/
theorem c3_result_flush_cex :
    (runEvents initSys [InEvent.delta "hello", InEvent.resultEvt "" false]).2.1
      = []
    ∧ (runEvents initSys
        [InEvent.delta "hello", InEvent.resultEvt "done" false]).2.1
      = [OutMsg.completionOk "done"]
    ∧ OutMsg.completionOk "done" ≠ OutMsg.completionOk ("hello" ++ "done") := by
  decide

/-- Claim C3 (amended): with no question pending, at the result event the
narrative accumulator is discarded and only the result record's own text is
sent — exactly one success completion when it is non-blank after trimming and
no error, none when it is empty or whitespace-only (the blank guard of
`sendEmbed`), and exactly one failure notice on error; for the turn with
delta 4 and a non-error result whose text is 4, exactly one completion notice
with text 4 and no question event is produced. -/
theorem c3_result_flush_amended (st : SysState) (text : String)
    (hq : (trimChars st.cls.questionBuffer.data).isEmpty = true)
    (hof : overflowDetected (st.cls.responseBuffer ++ text) = false)
    (hask : st.handledAskUser = false) :
    (stepEvent st (.resultEvt text false)).2.1
      = (if (trimChars text.data).isEmpty then [] else [OutMsg.completionOk text])
    ∧ (stepEvent st (.resultEvt text true)).2.1 = [OutMsg.completionErr]
    ∧ (stepEvent st (.resultEvt text false)).1.cls.responseBuffer = ""
    ∧ (stepEvent initSys (.resultEvt " " false)).2.1 = []
    ∧ (runEvents initSys [InEvent.delta "4", InEvent.resultEvt "4" false]).2.1
        = [OutMsg.completionOk "4"]
    ∧ ∀ q, OutMsg.question q
        ∉ (runEvents initSys [InEvent.delta "4", InEvent.resultEvt "4" false]).2.1 := by
  have hflush : flushQuestion st.cls = ({ st.cls with timerArmed := false }, []) := by
    simp [flushQuestion, hq]
  refine ⟨?_, ?_, ?_, by decide, by decide, ?_⟩
  · by_cases he : text = ""
    · subst he
      have hof2 : overflowDetected st.cls.responseBuffer = false := by
        simpa using hof
      have h0 : (trimChars ("" : String).data).isEmpty = true := by decide
      simp [stepEvent, stepResult, hof2, hask, hflush, h0]
    · simp [stepEvent, stepResult, hof, hask, hflush, he, sendEmbed]
  · simp [stepEvent, stepResult, hof, hask, hflush]
  · by_cases he : text = ""
    · subst he
      have hof2 : overflowDetected st.cls.responseBuffer = false := by
        simpa using hof
      simp [stepEvent, stepResult, hof2, hask, hflush]
    · simp [stepEvent, stepResult, hof, hask, hflush, he]
  · intro q
    rw [show (runEvents initSys
        [InEvent.delta "4", InEvent.resultEvt "4" false]).2.1
        = [OutMsg.completionOk "4"] from by decide]
    simp

/-- Witness for C3 (amended) at a concrete non-error result. -/
theorem c3_result_flush_amended_witness :
    (stepEvent initSys (.resultEvt "ok" false)).2.1
      = (if (trimChars ("ok" : String).data).isEmpty then []
         else [OutMsg.completionOk "ok"])
    ∧ (stepEvent initSys (.resultEvt "ok" true)).2.1 = [OutMsg.completionErr] :=
  ⟨(c3_result_flush_amended initSys "ok" (by decide) (by decide) rfl).1,
   (c3_result_flush_amended initSys "ok" (by decide) (by decide) rfl).2.1⟩

/-- Claim C6: a subprocess exit with a nonzero, non-null code sends exactly
one fatal notice and removes the conversation key from the registry; exits
with code 0 or null send no fatal notice. -/
theorem c6_fatal_exit (st : SysState) (c : Int) (hc : c ≠ 0) :
    (stepEvent st (.exitEvt (some c))).2.1 = [OutMsg.fatalNotice c]
    ∧ (stepEvent st (.exitEvt (some c))).1.registered = false
    ∧ (stepEvent st (.exitEvt (some 0))).2.1 = []
    ∧ (stepEvent st (.exitEvt none)).2.1 = [] := by
  simp [stepEvent, stepExit, hc]

/-- Witness for C6 at exit code 137. -/
theorem c6_fatal_exit_witness :
    (stepEvent initSys (.exitEvt (some 137))).2.1 = [OutMsg.fatalNotice 137]
    ∧ (stepEvent initSys (.exitEvt (some 137))).1.registered = false :=
  ⟨(c6_fatal_exit initSys 137 (by decide)).1,
   (c6_fatal_exit initSys 137 (by decide)).2.1⟩

/-- Counterexample for Claim C9 as stated: an ordinary tool invocation (here
Bash) sends NO notice to the chat thread — the handler only logs to the
console and returns. -/
theorem c9_tool_notice_cex :
    stepEvent initSys (.toolUse "Bash" { questions := none }) = (initSys, [], []) := by
  decide

/-- Claim C9 (amended): tool invocations other than the reserved
AskUserQuestion produce no chat message (they are only logged locally, not
debounced); for the reserved tool, unparseable structured input leaves the
state — including the text buffers — untouched and sends nothing (fallback to
ordinary narrative, not a failure). -/
theorem c9_tool_notice_amended (st : SysState) (name : String) (input : ToolInput)
    (hn : name ≠ "AskUserQuestion") :
    stepEvent st (.toolUse name input) = (st, [], [])
    ∧ (input.questions = none →
        stepEvent st (.toolUse "AskUserQuestion" input) = (st, [], []))
    ∧ (input.questions = some [] →
        stepEvent st (.toolUse "AskUserQuestion" input) = (st, [], [])) := by
  refine ⟨by simp [stepEvent, stepToolUse, hn], fun h => ?_, fun h => ?_⟩
  · simp [stepEvent, stepToolUse, h]
  · simp [stepEvent, stepToolUse, h]

/-- Witness for C9 (amended) at concrete tools. -/
theorem c9_tool_notice_amended_witness :
    stepEvent initSys (.toolUse "Read" { questions := none }) = (initSys, [], [])
    ∧ stepEvent initSys (.toolUse "AskUserQuestion" { questions := none })
        = (initSys, [], []) :=
  ⟨(c9_tool_notice_amended initSys "Read" { questions := none } (by decide)).1,
   (c9_tool_notice_amended initSys "Read" { questions := none } (by decide)).2.1 rfl⟩

end DiscordClaude
